import Mathlib

/-!
Shallow embedding of the custom-components core of this repository
(lib/streamlit/components.py): the component registry, the asset request
handler, and the instance identity / argument-marshalling protocol.

External collaborators (file system, mimetypes.guess_type, the value
store _get_widget_ui_value, json.dumps, the dataframe predicate) are
passed in as function parameters, matching the interfaces the source
calls them through.
-/

set_option autoImplicit false

/-- A Custom Component declaration (the fields of class CustomComponent). -/
structure CustomComponent where
  name : String
  path : Option String
  url : Option String
  deriving DecidableEq, Repr

/-- CustomComponent.__init__ : exactly one of path/url must be set,
otherwise a StreamlitAPIException is raised (modelled as Except.error). -/
def CustomComponent.make (name : String) (path url : Option String) :
    Except String CustomComponent :=
  if (path.isNone && url.isNone) || (path.isSome && url.isSome) then
    Except.error "Either \x27path\x27 or \x27url\x27 must be set, but not both."
  else
    Except.ok ⟨name, path, url⟩

/-- Split a character list on a separator character, mirroring Python's
str.split: the empty list yields one empty segment. -/
def splitOnChar (sep : Char) : List Char → List (List Char)
  | [] => [[]]
  | c :: cs =>
    let r := splitOnChar sep cs
    if c = sep then [] :: r
    else
      match r with
      | [] => [[c]]
      | h :: t => (c :: h) :: t

/-- path.split on the "/" separator. -/
def splitSlash (s : String) : List String :=
  (splitOnChar (Char.ofNat 47) s.data).map (fun cs => String.mk cs)

/-- Rejoin path segments with "/" ("/".join in the source). -/
def joinSegs : List String → String
  | [] => ""
  | [s] => s
  | s :: rest => s ++ "/" ++ joinSegs rest

/-- Whether the string starts with the given string. -/
def strStartsWith (s pre : String) : Bool :=
  pre.data.isPrefixOf s.data

/-- Whether the string ends with the given string. -/
def strEndsWith (s post : String) : Bool :=
  post.data.isSuffixOf s.data

/-- One step of OS-level segment normalisation; the accumulator holds the
kept segments in reverse order. Empty and "." segments are dropped, ".."
removes the previous segment (and is a no-op at the root). -/
def normStep (acc : List String) (seg : String) : List String :=
  if seg = "" || seg = "." then acc
  else if seg = ".." then acc.tail
  else seg :: acc

/-- The absolute path the operating system actually resolves when a path
is opened: "", "." and ".." segments are collapsed. -/
def normalizePath (p : String) : String :=
  "/" ++ joinSegs (((splitSlash p).foldl normStep []).reverse)

/-- os.path.join for one extra part: an absolute second part replaces the
first, otherwise the parts are joined with a single "/". -/
def joinPath (a b : String) : String :=
  if strStartsWith b "/" then b
  else if strEndsWith a "/" then a ++ b
  else a ++ "/" ++ b

/-- os.path.abspath relative to the current working directory. -/
def abspathF (cwd p : String) : String :=
  normalizePath (joinPath cwd p)

/-- The CustomComponent.abspath property: the absolute path the component
is served from, or none when it is URL-backed. -/
def CustomComponent.abspathOf (cwd : String) (c : CustomComponent) :
    Option String :=
  c.path.map (abspathF cwd)

/-- CustomComponent.__str__. -/
def CustomComponent.toStr (c : CustomComponent) : String :=
  "\x27" ++ c.name ++ "\x27: " ++
    (match c.path with
     | some p => p
     | none =>
       match c.url with
       | some u => u
       | none => "None")

/-- ComponentRegistry._components : a dict from component name to
declaration, modelled as an association list with at most one entry per
name. -/
abbrev Registry := List (String × CustomComponent)

/-- dict.get on the registry. -/
def lookupReg (reg : Registry) (name : String) : Option CustomComponent :=
  (reg.find? (fun p => p.1 == name)).map Prod.snd

/-- dict assignment: replaces any existing entry under the same key. -/
def regInsert (reg : Registry) (c : CustomComponent) : Registry :=
  (c.name, c) :: reg.filter (fun p => p.1 != c.name)

/-- The part of ComponentRegistry.register_component under the lock, plus
the warning emission: read the existing entry, store the new one, and
emit one warning naming both declarations when a non-equal entry is
overwritten. Returns the new registry and the warning messages logged. -/
def registerUnchecked (reg : Registry) (c : CustomComponent) :
    Registry × List String :=
  let existing := lookupReg reg c.name
  let reg' := regInsert reg c
  let ws :=
    match existing with
    | some e =>
      if c = e then []
      else [c.toStr ++ " overriding previously-registered " ++ e.toStr]
    | none => []
  (reg', ws)

/-- ComponentRegistry.register_component : validate the component's
directory (raising a StreamlitAPIException when it does not exist) before
any mutation, then insert and warn. On error the registry is unchanged.
isdir is the external os.path.isdir. -/
def register_component (cwd : String) (isdir : String → Bool)
    (reg : Registry) (c : CustomComponent) :
    Registry × Except String (List String) :=
  match c.abspathOf cwd with
  | some ap =>
    if isdir ap then
      let r := registerUnchecked reg c
      (r.1, Except.ok r.2)
    else
      (reg, Except.error ("No such component directory: \x27" ++ ap ++ "\x27"))
  | none =>
    let r := registerUnchecked reg c
    (r.1, Except.ok r.2)

/-- ComponentRegistry.get_component_path : the filesystem path for the
named component, none when unregistered or URL-backed. -/
def get_component_path (cwd : String) (reg : Registry) (name : String) :
    Option String :=
  match lookupReg reg name with
  | some c => c.abspathOf cwd
  | none => none

/-- declare_component : construct the declaration and register it. The
component name is resolved from the calling stack frame in the source,
which is external to this core; it is taken here as a parameter. -/
def declare_component (cwd : String) (isdir : String → Bool)
    (reg : Registry) (component_name : String) (path url : Option String) :
    Registry × Except String CustomComponent :=
  match CustomComponent.make component_name path url with
  | Except.error e => (reg, Except.error e)
  | Except.ok c =>
    match register_component cwd isdir reg c with
    | (reg', Except.ok _) => (reg', Except.ok c)
    | (reg', Except.error e) => (reg', Except.error e)

/-- A failure of the text read performed by open(abspath, "r").read():
either an OSError (missing file, permission denied, is-a-directory), the
only class the handler catches, or any other error (for instance a
UnicodeDecodeError on a file that is not valid text). -/
inductive ReadErr where
  | osError (msg : String)
  | otherError (msg : String)
  deriving DecidableEq, Repr

/-- A filesystem, keyed by the OS-resolved path: a text read either
yields the contents or fails. -/
abbrev FS := String → Except ReadErr String

/-- The observable parts of the HTTP response the handler builds. -/
structure Response where
  status : Nat
  body : String
  contentType : Option String
  cacheControl : Option String
  deriving DecidableEq, Repr

/-- The outcome of a request: a response, or an exception escaping the
handler (in which case tornado, not this code, produces a 500). -/
inductive HandlerOutcome where
  | ok (r : Response)
  | uncaught (msg : String)
  deriving DecidableEq, Repr

/-- ComponentRequestHandler.set_extra_headers : the Cache-Control value,
computed from the path argument the handler passes in (which is the full
request path, not the path relative to the component root). -/
def set_extra_headers_cache (path : String) : String :=
  if path.length == 0 || strEndsWith path ".html" then "no-cache"
  else "public"

/-- ComponentRequestHandler.get_content_type, given the external
mimetypes.guess_type collaborator returning (mime_type, encoding). -/
def get_content_type (mime : String → Option String × Option String)
    (abspath : String) : String :=
  match mime abspath with
  | (_, some enc) =>
    if enc = "gzip" then "application/gzip" else "application/octet-stream"
  | (some m, none) => m
  | (none, none) => "application/octet-stream"

/-- ComponentRequestHandler.get : split the request path, resolve the
component root through the registry, join the remainder onto the root,
read the file (the OS resolving "." and ".." segments), and build the
response. Only OSError is caught; any other read failure escapes. -/
def ComponentRequestHandler.get (cwd : String)
    (mime : String → Option String × Option String)
    (reg : Registry) (fs : FS) (path : String) : HandlerOutcome :=
  let parts := splitSlash path
  let component_name := parts.headD ""
  match get_component_path cwd reg component_name with
  | none => HandlerOutcome.ok ⟨404, path ++ " not found", none, none⟩
  | some component_root =>
    let filename := joinSegs (parts.drop 1)
    let abspath := joinPath component_root filename
    match fs (normalizePath abspath) with
    | Except.error (ReadErr.osError e) =>
      HandlerOutcome.ok ⟨404, path ++ " read error: " ++ e, none, none⟩
    | Except.error (ReadErr.otherError e) => HandlerOutcome.uncaught e
    | Except.ok contents =>
      HandlerOutcome.ok
        ⟨200, contents, some (get_content_type mime abspath),
          some (set_extra_headers_cache path)⟩

/-- The component_instance element fields this file writes. -/
structure ComponentInstanceEl (D : Type) where
  component_name : String
  url : Option String
  args_json : Option String
  args_dataframe : List (String × D)
  deriving DecidableEq, Repr

/-- The value the instance call resolves to: a real value, or the
distinguished NoValue sentinel used when no value is available. -/
inductive ComponentValue (V : Type) where
  | value (v : V)
  | noValue
  deriving DecidableEq, Repr

/-- marshall_element_args : write the serialized JSON arguments into
args_json and append each named dataframe argument. -/
def marshall_element_args {D : Type} (serialized : String)
    (dfs : List (String × D)) (e : ComponentInstanceEl D) :
    ComponentInstanceEl D :=
  ⟨e.component_name, e.url, some serialized, e.args_dataframe ++ dfs⟩

/-- What a run of marshall_component produces: the element state handed
to the value store (whose contents the identity hash covers), the final
element state, and the resolved value. -/
structure MarshallResult (D V : Type) where
  elementAtStore : ComponentInstanceEl D
  finalElement : ComponentInstanceEl D
  value : ComponentValue V
  deriving DecidableEq, Repr

/-- marshall_component : the builder handed to the enqueue collaborator.
store is the external _get_widget_ui_value: it receives the element as
written so far plus the user key, and returns the reported value, or
none when the frontend has not yet reported one. When key is none the
arguments are written before the store call; when key is present the
store call happens first and the arguments are written afterward. A
missing reported value falls back to the default, and a still-missing
value becomes the NoValue sentinel. -/
def marshall_component {D V : Type} (name : String) (url : Option String)
    (serialized : String) (dfs : List (String × D)) (key : Option String)
    (dflt : Option V)
    (store : ComponentInstanceEl D → Option String → Option V) :
    MarshallResult D V :=
  let e0 : ComponentInstanceEl D := ⟨name, url, none, []⟩
  let e1 := if key.isNone then marshall_element_args serialized dfs e0 else e0
  let widget0 := store e1 key
  let e2 := if key.isSome then marshall_element_args serialized dfs e1 else e1
  let widget1 := if widget0.isNone then dflt else widget0
  ⟨e1, e2,
    match widget1 with
    | some v => ComponentValue.value v
    | none => ComponentValue.noValue⟩

/-- The keyword parameters declared by create_instance's signature, which
Python binds before filling **kwargs. -/
def reservedNames : List String := ["loc", "default", "key"]

/-- Python call binding for create_instance's signature: keyword
arguments named loc, default or key bind to the declared parameters and
only the remaining ones land in **kwargs. -/
def bindKwargs {V : Type} (named : List (String × V)) : List (String × V) :=
  named.filter (fun p => !(reservedNames.contains p.1))

/-- The kwargs that are not dataframe-like, collected into args_json. -/
def argsJsonOf {V : Type} (isDf : V → Bool) (kwargs : List (String × V)) :
    List (String × V) :=
  kwargs.filter (fun p => !(isDf p.2))

/-- The dataframe-like kwargs, collected into args_df. -/
def argsDfOf {V : Type} (isDf : V → Bool) (kwargs : List (String × V)) :
    List (String × V) :=
  kwargs.filter (fun p => isDf p.2)

/-- CustomComponent.create_instance : reject positional arguments with a
usage error naming the first offending value, partition the keyword
arguments, JSON-encode the non-dataframe ones (wrapping an encode
failure), and run marshall_component. isDf is the external
type_util.is_dataframe_like, toStr the Python str conversion, dumps the
external json.dumps, store the external _get_widget_ui_value. An element
is produced (enqueued) only in the Except.ok case. -/
def create_instance {V : Type} (c : CustomComponent) (isDf : V → Bool)
    (toStr : V → String)
    (dumps : List (String × V) → Except String String)
    (store : ComponentInstanceEl V → Option String → Option V)
    (args : List V) (dflt : Option V) (key : Option String)
    (kwargs : List (String × V)) : Except String (MarshallResult V V) :=
  match args with
  | v :: _ => Except.error ("Argument \x27" ++ toStr v ++ "\x27 needs a label")
  | [] =>
    let argsJson := argsJsonOf isDf kwargs
    let argsDf := argsDfOf isDf kwargs
    match dumps argsJson with
    | Except.error _ =>
      Except.error "Could not convert component args to JSON"
    | Except.ok serialized =>
      Except.ok (marshall_component c.name c.url serialized argsDf key dflt store)

/-! Concrete fixtures used by the examples and witnesses below. -/

/-- A registry with one local component "comp" rooted at /app/comp. -/
def regC : Registry := [("comp", ⟨"comp", some "/app/comp", none⟩)]

/-- A registry with one URL-backed component. -/
def regU : Registry :=
  [("urlcomp", ⟨"urlcomp", none, some "http://localhost:3001"⟩)]

/-- A mimetypes.guess_type that detects nothing. -/
def mimeNone : String → Option String × Option String := fun _ => (none, none)

/-- A filesystem on which every text read fails with the OSError that
opening a directory raises. -/
def fsDir : FS := fun _ => Except.error (ReadErr.osError "[Errno 21] Is a directory")

/-- A filesystem holding only /etc/passwd, outside every component root. -/
def fsEtc : FS := fun p =>
  if p = "/etc/passwd" then Except.ok "root:x:0:0::/root:/bin/bash"
  else Except.error (ReadErr.osError "No such file or directory")

/-- A filesystem on which every text read fails with a decoding error,
which is not an OSError. -/
def fsBin : FS := fun _ =>
  Except.error (ReadErr.otherError "UnicodeDecodeError: invalid start byte")

/-- A filesystem holding only the component's index.html. -/
def fsHtml : FS := fun p =>
  if p = "/app/comp/index.html" then Except.ok "<html>"
  else Except.error (ReadErr.osError "No such file or directory")

/-- A filesystem on which every text read fails with ENOENT. -/
def fsMissing : FS := fun _ => Except.error (ReadErr.osError "ENOENT")

/-- An os.path.isdir that knows only the directory /app/comp. -/
def isdirC : String → Bool := fun p => p == "/app/comp"

/-- C1: on an instance call with no user key, the JSON blob and the
tabular blobs are written into the element strictly before the value
store is consulted, so the element the store hashes already carries
them; with a user key, the store is consulted first on an element
carrying only the component name and URL, and the arguments are written
afterward but still appear in the final element. -/
theorem c1_marshall_ordering {D V : Type} (name : String)
    (url : Option String) (s : String) (dfs : List (String × D))
    (dflt : Option V)
    (store : ComponentInstanceEl D → Option String → Option V) :
    ((marshall_component name url s dfs none dflt store).elementAtStore
        = ⟨name, url, some s, dfs⟩
      ∧ (marshall_component name url s dfs none dflt store).finalElement
        = ⟨name, url, some s, dfs⟩)
    ∧ ∀ k : String,
      (marshall_component name url s dfs (some k) dflt store).elementAtStore
          = ⟨name, url, none, []⟩
        ∧ (marshall_component name url s dfs (some k) dflt store).finalElement
          = ⟨name, url, some s, dfs⟩ :=
  ⟨⟨rfl, rfl⟩, fun _ => ⟨rfl, rfl⟩⟩

/-- C2: when the value store reports nothing (none), the caller's
default is substituted; when the default is itself unset too, the
marshalled result is the NoValue sentinel, a constructor distinct from
every real value (in particular from an explicit null value). -/
theorem c2_value_resolution {D V : Type} (name : String)
    (url : Option String) (s : String) (dfs : List (String × D))
    (key : Option String) (d : V) :
    (marshall_component name url s dfs key (some d)
        (fun _ _ => (none : Option V))).value = ComponentValue.value d
    ∧ (marshall_component name url s dfs key (none : Option V)
        (fun _ _ => none)).value = ComponentValue.noValue
    ∧ ∀ v : V,
        (ComponentValue.noValue : ComponentValue V) ≠ ComponentValue.value v := by
  refine ⟨?_, ?_, fun v h => ComponentValue.noConfusion h⟩
  · cases key <;> rfl
  · cases key <;> rfl

/-- Witness for C2 at a concrete input (values over Nat, null played by 0). -/
theorem c2_value_resolution_witness :
    (marshall_component "comp" none "\x7b\x7d" ([] : List (String × Nat)) none
        (some 7) (fun _ _ => (none : Option Nat))).value = ComponentValue.value 7
    ∧ (marshall_component "comp" none "\x7b\x7d" ([] : List (String × Nat)) none
        (none : Option Nat) (fun _ _ => none)).value = ComponentValue.noValue
    ∧ (ComponentValue.noValue : ComponentValue Nat) ≠ ComponentValue.value 0 :=
  ⟨(@c2_value_resolution Nat Nat "comp" none "\x7b\x7d" [] none 7).1,
    (@c2_value_resolution Nat Nat "comp" none "\x7b\x7d" [] none 7).2.1,
    (@c2_value_resolution Nat Nat "comp" none "\x7b\x7d" [] none 7).2.2 0⟩

/-- C9: any instance call with a positional argument fails with the
usage error naming the first positional value; the result is an error,
so no element is produced or enqueued. -/
theorem c9_positional_usage_error {V : Type} (c : CustomComponent)
    (isDf : V → Bool) (toStr : V → String)
    (dumps : List (String × V) → Except String String)
    (store : ComponentInstanceEl V → Option String → Option V)
    (v : V) (vs : List V) (dflt : Option V) (key : Option String)
    (kwargs : List (String × V)) :
    create_instance c isDf toStr dumps store (v :: vs) dflt key kwargs
      = Except.error ("Argument \x27" ++ toStr v ++ "\x27 needs a label") :=
  rfl

/-- C10: after Python binds the declared keyword parameters, the kwargs
partitioned into the JSON and tabular argument sets never contain an
argument named loc, default or key. -/
theorem c10_reserved_names_not_forwarded {V : Type} (isDf : V → Bool)
    (named : List (String × V)) :
    ((argsJsonOf isDf (bindKwargs named)
        ++ argsDfOf isDf (bindKwargs named)).all
      (fun p => !(reservedNames.contains p.1))) = true := by
  rw [List.all_eq_true]
  intro p hp
  rcases List.mem_append.mp hp with h | h
  · exact (List.mem_filter.mp (List.mem_filter.mp h).1).2
  · exact (List.mem_filter.mp (List.mem_filter.mp h).1).2

/-- C3 counterexample: a request for "comp" alone (empty relative path,
component registered at /app/comp) does not get Cache-Control no-cache;
opening the component root directory fails with an OSError, so the
handler answers 404 and never sets a Cache-Control header. -/
theorem c3_cache_counterexample :
    ComponentRequestHandler.get "/" mimeNone regC fsDir "comp"
      = HandlerOutcome.ok
          ⟨404, "comp read error: [Errno 21] Is a directory", none, none⟩ :=
  rfl

/-- The Cache-Control rule actually implemented, as a biconditional over
the path handed to set_extra_headers. -/
theorem set_extra_headers_cache_iff (path : String) :
    set_extra_headers_cache path = "no-cache"
      ↔ (path.length = 0 ∨ strEndsWith path ".html" = true) := by
  have hcond : ((path.length == 0 || strEndsWith path ".html") = true)
      ↔ (path.length = 0 ∨ strEndsWith path ".html" = true) := by
    simp
  unfold set_extra_headers_cache
  split
  · rename_i hc
    exact iff_of_true rfl (hcond.mp hc)
  · rename_i hc
    exact iff_of_false (by decide) (fun hx => absurd (hcond.mpr hx) hc)

/-- C3 amended: the Cache-Control header is computed from the full
request path, not the relative path within the bundle: every successful
(200) response carries no-cache exactly when the full request path is
empty or ends with ".html", and public otherwise. -/
theorem c3_cache_amended (cwd : String)
    (mime : String → Option String × Option String) (reg : Registry)
    (fs : FS) (path : String) (r : Response)
    (h : ComponentRequestHandler.get cwd mime reg fs path
        = HandlerOutcome.ok r)
    (hs : r.status = 200) :
    r.cacheControl = some (set_extra_headers_cache path)
    ∧ (set_extra_headers_cache path = "no-cache"
        ↔ (path.length = 0 ∨ strEndsWith path ".html" = true)) := by
  refine ⟨?_, set_extra_headers_cache_iff path⟩
  simp only [ComponentRequestHandler.get] at h
  split at h
  · injection h with h
    subst h
    simp at hs
  · split at h
    · injection h with h
      subst h
      simp at hs
    · exact HandlerOutcome.noConfusion h
    · injection h with h
      subst h
      rfl

/-- Witness for C3 amended: the successful request "comp/index.html"
carries Cache-Control no-cache, as the full path ends with ".html". -/
theorem c3_cache_amended_witness :
    (Response.mk 200 "<html>" (some "application/octet-stream")
        (some "no-cache")).cacheControl
      = some (set_extra_headers_cache "comp/index.html")
    ∧ (set_extra_headers_cache "comp/index.html" = "no-cache"
        ↔ (("comp/index.html" : String).length = 0
            ∨ strEndsWith "comp/index.html" ".html" = true)) :=
  c3_cache_amended "/" mimeNone regC fsHtml "comp/index.html"
    (Response.mk 200 "<html>" (some "application/octet-stream")
      (some "no-cache")) rfl rfl

/-- C4 (code bug): the handler joins the relative path onto the
component root without rejecting or neutralising ".." segments, so the
request "comp/../../etc/passwd" for the component rooted at /app/comp
resolves to /etc/passwd, a path outside the root, and its contents are
served with status 200. -/
theorem c4_path_traversal_bug :
    ComponentRequestHandler.get "/" mimeNone regC fsEtc "comp/../../etc/passwd"
      = HandlerOutcome.ok
          ⟨200, "root:x:0:0::/root:/bin/bash",
            some "application/octet-stream", some "public"⟩
    ∧ normalizePath (joinPath "/app/comp"
          (joinSegs ((splitSlash "comp/../../etc/passwd").drop 1)))
        = "/etc/passwd"
    ∧ strStartsWith "/etc/passwd" "/app/comp" = false :=
  ⟨rfl, rfl, rfl⟩

/-- C5 counterexample: a read failure that is not an OSError (here a
decoding error on a binary asset) is not caught: the handler does not
produce a 404 but lets the failure escape (tornado then yields a 500). -/
theorem c5_read_error_counterexample :
    ComponentRequestHandler.get "/" mimeNone regC fsBin "comp/logo.png"
      = HandlerOutcome.uncaught "UnicodeDecodeError: invalid start byte" :=
  rfl

/-- C5 amended: when the component name resolves to a root and the text
read of the joined path fails with an OSError (missing file, permission
denied, is-a-directory), the handler answers 404 with a plain-text body
carrying the error detail; read failures outside OSError are not caught
and propagate. -/
theorem c5_oserror_amended (cwd : String)
    (mime : String → Option String × Option String) (reg : Registry)
    (fs : FS) (path root e : String)
    (hr : get_component_path cwd reg ((splitSlash path).headD "") = some root)
    (h : fs (normalizePath (joinPath root
          (joinSegs ((splitSlash path).drop 1))))
        = Except.error (ReadErr.osError e)) :
    ComponentRequestHandler.get cwd mime reg fs path
      = HandlerOutcome.ok
          ⟨404, path ++ " read error: " ++ e, none, none⟩ := by
  simp only [ComponentRequestHandler.get, hr]
  rw [h]

/-- Witness for C5 amended: a missing file under a registered component
yields a 404 whose body carries the request path and error detail. -/
theorem c5_oserror_amended_witness :
    ComponentRequestHandler.get "/" mimeNone regC fsMissing "comp/app.js"
      = HandlerOutcome.ok
          ⟨404, "comp/app.js read error: ENOENT", none, none⟩ :=
  c5_oserror_amended "/" mimeNone regC fsMissing "comp/app.js" "/app/comp"
    "ENOENT" rfl rfl

/-- C6: when the first path segment names a component that is
unregistered or URL-backed, the registry lookup is absent and the
handler answers 404 with a plain-text body naming the original request
path; the result does not depend on the filesystem (fs is arbitrary), so
no file is read or served. -/
theorem c6_absent_is_404 (cwd : String)
    (mime : String → Option String × Option String) (reg : Registry)
    (fs : FS) (path : String)
    (h : lookupReg reg ((splitSlash path).headD "") = none
        ∨ ∃ c, lookupReg reg ((splitSlash path).headD "") = some c
            ∧ c.path = none) :
    get_component_path cwd reg ((splitSlash path).headD "") = none
    ∧ ComponentRequestHandler.get cwd mime reg fs path
        = HandlerOutcome.ok ⟨404, path ++ " not found", none, none⟩ := by
  have hg : get_component_path cwd reg ((splitSlash path).headD "") = none := by
    rcases h with h | ⟨c, hc, hp⟩
    · simp only [get_component_path, h]
    · simp only [get_component_path, hc, CustomComponent.abspathOf, hp,
        Option.map_none']
  refine ⟨hg, ?_⟩
  simp only [ComponentRequestHandler.get, hg]

/-- Witness for C6: a URL-backed registered component is never served
locally; the request gets a 404 naming the request path. -/
theorem c6_absent_is_404_witness :
    get_component_path "/" regU ((splitSlash "urlcomp/main.js").headD "") = none
    ∧ ComponentRequestHandler.get "/" mimeNone regU fsMissing "urlcomp/main.js"
        = HandlerOutcome.ok
            ⟨404, "urlcomp/main.js not found", none, none⟩ :=
  c6_absent_is_404 "/" mimeNone regU fsMissing "urlcomp/main.js"
    (Or.inr ⟨⟨"urlcomp", none, some "http://localhost:3001"⟩, rfl, rfl⟩)

/-- Looking up a just-inserted component finds it. -/
theorem lookupReg_regInsert (reg : Registry) (c : CustomComponent) :
    lookupReg (regInsert reg c) c.name = some c := by
  unfold lookupReg regInsert
  rw [List.find?_cons_of_pos _ (by simp)]
  rfl

/-- Entries surviving the name filter never match that name again. -/
theorem filter_eq_of_filter_ne (l : List (String × CustomComponent))
    (n : String) :
    (l.filter (fun p => p.1 != n)).filter (fun p => p.1 == n) = [] := by
  induction l with
  | nil => rfl
  | cons a t ih =>
    by_cases hh : a.1 = n
    · simp [List.filter_cons, hh, ih]
    · simp [List.filter_cons, hh, ih]

/-- C7: declaring a component fails with a configuration error exactly
when both or neither of path and url are supplied, or when the supplied
local path does not resolve to an existing directory; on error the
registry is unchanged (the component is never added); with an existing
local path the declaration succeeds and resolvePath afterwards returns
its absolute form. -/
theorem c7_declare_configuration (cwd : String) (isdir : String → Bool)
    (reg : Registry) (name : String) (path url : Option String) :
    ((∃ e, (declare_component cwd isdir reg name path url).2 = Except.error e)
      ↔ ((path = none ∧ url = none) ∨ (path ≠ none ∧ url ≠ none)
          ∨ ∃ p, path = some p ∧ isdir (abspathF cwd p) = false))
    ∧ (∀ e, (declare_component cwd isdir reg name path url).2 = Except.error e
        → (declare_component cwd isdir reg name path url).1 = reg)
    ∧ (∀ p, path = some p → url = none → isdir (abspathF cwd p) = true
        → (declare_component cwd isdir reg name path url).2
            = Except.ok ⟨name, some p, none⟩
          ∧ get_component_path cwd
              (declare_component cwd isdir reg name path url).1 name
            = some (abspathF cwd p)) := by
  cases path with
  | none =>
    cases url with
    | none =>
      refine ⟨?_, ?_, ?_⟩
      · simp [declare_component, CustomComponent.make]
      · intro e _
        rfl
      · intro p hp
        exact Option.noConfusion hp
    | some u =>
      refine ⟨?_, ?_, ?_⟩
      · simp [declare_component, CustomComponent.make, register_component,
          CustomComponent.abspathOf, registerUnchecked]
      · intro e he
        simp [declare_component, CustomComponent.make, register_component,
          CustomComponent.abspathOf, registerUnchecked] at he
      · intro p hp
        exact Option.noConfusion hp
  | some p0 =>
    cases url with
    | some u =>
      refine ⟨?_, ?_, ?_⟩
      · simp [declare_component, CustomComponent.make]
      · intro e _
        rfl
      · intro p hp hu
        exact Option.noConfusion hu
    | none =>
      cases hd : isdir (abspathF cwd p0) with
      | true =>
        refine ⟨?_, ?_, ?_⟩
        · simp [declare_component, CustomComponent.make, register_component,
            CustomComponent.abspathOf, registerUnchecked, hd]
        · intro e he
          simp [declare_component, CustomComponent.make, register_component,
            CustomComponent.abspathOf, registerUnchecked, hd] at he
        · intro p hp hu hd2
          injection hp with hpp
          subst hpp
          constructor
          · simp [declare_component, CustomComponent.make, register_component,
              CustomComponent.abspathOf, registerUnchecked, hd]
          · have h1 : (declare_component cwd isdir reg name (some p0) none).1
                = regInsert reg ⟨name, some p0, none⟩ := by
              simp [declare_component, CustomComponent.make, register_component,
                CustomComponent.abspathOf, registerUnchecked, hd]
            rw [h1]
            have h2 := lookupReg_regInsert reg ⟨name, some p0, none⟩
            simp only [get_component_path, h2, CustomComponent.abspathOf,
              Option.map_some']
      | false =>
        refine ⟨?_, ?_, ?_⟩
        · simp [declare_component, CustomComponent.make, register_component,
            CustomComponent.abspathOf, hd]
        · intro e he
          simp [declare_component, CustomComponent.make, register_component,
            CustomComponent.abspathOf, hd]
        · intro p hp hu hd2
          injection hp with hpp
          subst hpp
          exact absurd hd2 (by simp [hd])

/-- Witness for C7: declaring "comp" with the existing directory
/app/comp succeeds and resolvePath returns the absolute path. -/
theorem c7_declare_configuration_witness :
    (declare_component "/" isdirC ([] : Registry) "comp"
        (some "/app/comp") none).2
      = Except.ok ⟨"comp", some "/app/comp", none⟩
    ∧ get_component_path "/"
        (declare_component "/" isdirC ([] : Registry) "comp"
          (some "/app/comp") none).1 "comp"
      = some (abspathF "/" "/app/comp") :=
  (c7_declare_configuration "/" isdirC [] "comp" (some "/app/comp") none).2.2
    "/app/comp" rfl rfl (by rfl)

/-- C8: registering under an already-registered name (with a declaration
passing the directory check) emits no warning when the new declaration
equals the existing one, and exactly one warning naming both otherwise;
in both cases the registry afterwards maps the name to the newest
declaration and keeps exactly one entry under it. -/
theorem c8_reregistration (cwd : String) (isdir : String → Bool)
    (reg : Registry) (c e : CustomComponent)
    (hvalid : ∀ ap, c.abspathOf cwd = some ap → isdir ap = true)
    (he : lookupReg reg c.name = some e) :
    (register_component cwd isdir reg c).2
      = Except.ok (if c = e then []
          else [c.toStr ++ " overriding previously-registered " ++ e.toStr])
    ∧ lookupReg (register_component cwd isdir reg c).1 c.name = some c
    ∧ ((register_component cwd isdir reg c).1.filter
        (fun p => p.1 == c.name)).length = 1 := by
  have hrc : register_component cwd isdir reg c
      = (regInsert reg c,
          Except.ok (if c = e then []
            else [c.toStr ++ " overriding previously-registered " ++ e.toStr])) := by
    cases hab : c.abspathOf cwd with
    | some ap =>
      simp [register_component, hab, hvalid ap hab, registerUnchecked, he]
    | none =>
      simp [register_component, hab, registerUnchecked, he]
  refine ⟨?_, ?_, ?_⟩
  · rw [hrc]
  · rw [hrc]
    exact lookupReg_regInsert reg c
  · rw [hrc]
    simp [regInsert, List.filter_cons, filter_eq_of_filter_ne]

/-- The URL-backed declaration registered first in the C8 witness. -/
def compA : CustomComponent := ⟨"comp", none, some "http://a"⟩

/-- The non-equal URL-backed declaration registered second. -/
def compB : CustomComponent := ⟨"comp", none, some "http://b"⟩

/-- A registry already holding compA under "comp". -/
def regAB : Registry := [("comp", compA)]

/-- Witness for C8: re-registering "comp" with a non-equal declaration
yields exactly one warning naming both, and the registry maps "comp" to
the newest declaration with a single entry. -/
theorem c8_reregistration_witness :
    (register_component "/" isdirC regAB compB).2
      = Except.ok (if compB = compA then []
          else [compB.toStr ++ " overriding previously-registered "
            ++ compA.toStr])
    ∧ lookupReg (register_component "/" isdirC regAB compB).1 compB.name
        = some compB
    ∧ ((register_component "/" isdirC regAB compB).1.filter
        (fun p => p.1 == compB.name)).length = 1 :=
  c8_reregistration "/" isdirC regAB compB compA
    (fun ap h => by simp [compB, CustomComponent.abspathOf] at h) rfl
